import Mathlib

/-!
Verification of the book tree-view provider, browser JSON language-client
bootstrap, and welcome-page template of this repository.

Shallow embedding conventions:
* JavaScript exceptions are modelled by `Except String`; a thrown value is the
  `.error` case and `try/catch` is the total function `jsTry`.
* Host side effects (message boxes, command execution, event firing) are
  recorded as values of the `Effect` inductive, in program order.
* The host environment (file system, glob, YAML parser, configuration,
  localization bundle) is a record of oracles, `Env`.
* URIs are modelled by their `fsPath` string; `Uri.file p` has `fsPath` `p`.
* The single `setTimeout`-based debounce of `BookTreeViewProvider` is modelled
  as an explicit state machine over call / timer-fire events, where the set of
  actually scheduled (not yet fired or cleared) timers is tracked as a list so
  that "at most one timer is pending" is a provable statement rather than a
  modelling artifact.
-/

/-- JS `try { body } catch (e) { handler(e) }` where the handler returns
normally: the construct as a whole is total. -/
def jsTry {α : Type} (body : Except String α) (handler : String → α) : α :=
  match body with
  | .ok a => a
  | .error e => handler e

/-- POSIX-style `path.join` of two segments. -/
def pathJoin (a b : String) : String := a ++ "/" ++ b

/-- `path.dirname`: drop the last path component (`"."` when the path has no
separator). -/
def dirname (p : String) : String :=
  match p.data.reverse.dropWhile (fun c => c != '/') with
  | [] => "."
  | _ :: tl => String.mk tl.reverse

/-- The `.replace(/\\/g, '/')` applied to the glob pattern in
`getTableOfContentFiles`. -/
def replaceBackslashSlash (s : String) : String :=
  s.map (fun c => if c = '\\' then '/' else c)

/-- Substitute `{0}` and `{1}` in a localization pattern, as `vscode-nls`
does for the two-argument `localize` calls of the provider. -/
def fmtTwo (pattern a b : String) : String :=
  (pattern.replace ("\x7b0\x7d") a).replace ("\x7b1\x7d") b

/-- Substitute `{0}` in a localization pattern (one-argument `localize`). -/
def fmtOne (pattern a : String) : String :=
  pattern.replace ("\x7b0\x7d") a

/-- Host side effects performed by the provider and the activation function,
recorded in program order. -/
inductive Effect : Type where
  | showTextDocument (doc : String)
  | errorMessage (msg : String)
  | executeCommand (cmd : String) (arg : String)
  | setContext (key : String) (value : Bool)
  | fireDidChangeTreeData
  | fireReadAllTOCFiles
  | openExternal (uri : String)
  | consoleLog (err : String)
deriving DecidableEq, Repr

/-- One entry of a parsed `toc.yml`: the fields of a section object that the
provider reads (`title`, `url`, `external`, `sections`). `external` is the
truthiness of the `external` field; `url = none` models an absent (or falsy
non-string) `url` field; `subsections = none` models an absent or non-array
`sections` field (`Array.isArray(val.sections)` is false). -/
inductive TocSection : Type where
  | mk (title : String) (url : Option String) (external : Bool)
      (subsections : Option (List TocSection)) : TocSection
deriving Repr

def TocSection.title : TocSection → String
  | .mk t _ _ _ => t

def TocSection.url : TocSection → Option String
  | .mk _ u _ _ => u

def TocSection.external : TocSection → Bool
  | .mk _ _ e _ => e

def TocSection.subsections : TocSection → Option (List TocSection)
  | .mk _ _ _ s => s

/-- The field of the parsed `_config.yml` that `getBooks` reads. -/
structure BookConfig where
  title : String
deriving DecidableEq, Repr

/-- `BookTreeItemType` from bookTreeItem.ts. -/
inductive BookTreeItemType : Type where
  | Book
  | Notebook
  | Markdown
  | ExternalLink
deriving DecidableEq, Repr

/-!  The throttled markdown-preview state machine (`openMarkdown` /
`runThrottledAction` / the 300 ms `setTimeout`).

`throttleTimer` is the provider's `_throttleTimer` field: it holds the id of
the last scheduled timer and — exactly as in the source, whose timer callback
never resets the field — keeps holding that (truthy) id after the timer has
fired.  `pendingTimers` is the list of timers that are actually scheduled and
neither fired nor cleared, each with the resource captured by its action
closure.  Timer ids start at 1, as browser `setTimeout` ids are nonzero
(truthy). `executed` records, in order, the resource of every execution of the
markdown-preview action (the immediate executions and the timer firings). -/

structure ThrottleState where
  throttleTimer : Option Nat
  resource : Option String
  pendingTimers : List (Nat × String)
  nextTimerId : Nat
  executed : List String
deriving DecidableEq, Repr

def throttleInit : ThrottleState :=
  { throttleTimer := none, resource := none, pendingTimers := [], nextTimerId := 1,
    executed := [] }

/-- `clearTimeout(id)`: deschedule the timer with the given id
(`clearTimeout(undefined)` is a no-op). -/
def clearTimeoutJs (pending : List (Nat × String)) : Option Nat → List (Nat × String)
  | none => pending
  | some id => pending.filter (fun t => t.1 != id)

/-- `BookTreeViewProvider.runThrottledAction`, with the action of
`openMarkdown` (previewing `resource`) recorded in `executed`. -/
def runThrottledAction (st : ThrottleState) (resource : String) : ThrottleState :=
  let isResourceChange : Bool := some resource != st.resource
  let st1 :=
    if isResourceChange then
      { st with pendingTimers := clearTimeoutJs st.pendingTimers st.throttleTimer,
                throttleTimer := none }
    else st
  let st2 := { st1 with resource := some resource }
  -- Schedule update if none is pending
  match st2.throttleTimer with
  | none =>
    if isResourceChange then
      { st2 with executed := st2.executed ++ [resource] }
    else
      { st2 with pendingTimers := st2.pendingTimers ++ [(st2.nextTimerId, resource)],
                 throttleTimer := some st2.nextTimerId,
                 nextTimerId := st2.nextTimerId + 1 }
  | some _ => st2

/-- A scheduled 300 ms timer fires: its action runs and it leaves the pending
set; the `_throttleTimer` field is not reset by the callback. -/
def fireThrottleTimer (st : ThrottleState) : ThrottleState :=
  match st.pendingTimers with
  | [] => st
  | (_, r) :: rest => { st with pendingTimers := rest, executed := st.executed ++ [r] }

/-- Events of the debounce state machine: a call to `openMarkdown` or the
firing of a scheduled timer. -/
inductive MarkdownEvent : Type where
  | openMarkdown (resource : String)
  | timerFires
deriving DecidableEq, Repr

def throttleStep (st : ThrottleState) : MarkdownEvent → ThrottleState
  | .openMarkdown r => runThrottledAction st r
  | .timerFires => fireThrottleTimer st

def throttleRun (st : ThrottleState) (evs : List MarkdownEvent) : ThrottleState :=
  evs.foldl throttleStep st

/-- Invariant of the debounce: the pending set is empty, or it is the single
timer whose id `_throttleTimer` currently holds. -/
def ThrottleInv (st : ThrottleState) : Prop :=
  st.pendingTimers = [] ∨
    ∃ id r, st.pendingTimers = [(id, r)] ∧ st.throttleTimer = some id

/-!  The book tree-view provider: data model and environment. -/

/-- `flattenArray` from the provider: each entry followed by its recursively
flattened subsections when its `sections` field is an array, else just the
entry. -/
def flattenArray : List TocSection → List TocSection
  | [] => []
  | .mk t u e (some subs) :: rest =>
    (.mk t u e (some subs) :: flattenArray subs) ++ flattenArray rest
  | .mk t u e none :: rest => [.mk t u e none] ++ flattenArray rest

/-- A tree item of the provider. `page` is either the whole parsed table of
contents (for a `Book` item) or the single section entry the item was built
from. `previousUri`/`nextUri` are the fields `getNavigation` reads; they are
computed in bookTreeItem.ts, which is not part of the shown source, so their
values are supplied by the environment (`Env.prevUriOf`/`Env.nextUriOf`). -/
structure BookTreeItem where
  title : String
  root : String
  tableOfContents : List TocSection
  page : List TocSection ⊕ TocSection
  type : BookTreeItemType
  lightIconPath : String
  darkIconPath : String
  previousUri : Option String
  nextUri : Option String

/-- The host environment of the provider: file system, glob, YAML parsing,
configuration, localization bundle, and the abstracted bookTreeItem.ts
navigation-uri computation. A JS exception is an `Except.error`. -/
structure Env where
  openTextDocument : String → Except String String
  readFileUtf8 : String → Except String String
  parseConfigYaml : String → Except String BookConfig
  parseTocYaml : String → Except String (List TocSection)
  existsSync : String → Bool
  globSearch : String → Option Int → List String
  maxBookSearchDepth : Option Int
  openExternalResult : String → Except String Unit
  asAbsolutePath : String → String
  nlsBundle : String → String → String
  prevUriOf : List TocSection → (List TocSection ⊕ TocSection) → Option String
  nextUriOf : List TocSection → (List TocSection ⊕ TocSection) → Option String

/-- `localize(key, pattern, a, b)` of `vscode-nls`. -/
def localizeTwo (env : Env) (key pattern a b : String) : String :=
  fmtTwo (env.nlsBundle key pattern) a b

/-- `localize(key, pattern, a)` of `vscode-nls`. -/
def localizeOne (env : Env) (key pattern a : String) : String :=
  fmtOne (env.nlsBundle key pattern) a

/-- The `BookTreeItem` constructor as used by the provider: icon paths are
resolved through `asAbsolutePath`; the navigation uris come from the
abstracted bookTreeItem.ts computation. -/
def mkBookTreeItem (env : Env) (title root : String) (toc : List TocSection)
    (page : List TocSection ⊕ TocSection) (type : BookTreeItemType)
    (light dark : String) : BookTreeItem :=
  { title := title, root := root, tableOfContents := toc, page := page, type := type,
    lightIconPath := env.asAbsolutePath light, darkIconPath := env.asAbsolutePath dark,
    previousUri := env.prevUriOf toc page, nextUri := env.nextUriOf toc page }

/-- `BookTreeViewProvider.openNotebook`: open the document and show it; a
throw or rejection is caught and surfaced as a localized error message, so the
call always resolves. -/
def openNotebook (env : Env) (resource : String) : List Effect :=
  jsTry
    (do
      let doc ← env.openTextDocument resource
      pure [Effect.showTextDocument doc])
    (fun e => [Effect.errorMessage (localizeTwo env ("openNotebookError")
      ("Open file \x7b0\x7d failed: \x7b1\x7d") resource e)])

/-- `BookTreeViewProvider.openExternalLink`. -/
def openExternalLink (env : Env) (resource : String) : List Effect :=
  jsTry
    (do
      let _ ← env.openExternalResult resource
      pure [Effect.openExternal resource])
    (fun e => [Effect.errorMessage (localizeTwo env ("openExternalLinkError")
      ("Open link \x7b0\x7d failed: \x7b1\x7d") resource e)])

/-- The body of the `try` block of one `getBooks` iteration: read and parse
`_config.yml` and the toc file, then build the `Book` item. -/
def buildBook (env : Env) (tocPath : String) : Except String BookTreeItem := do
  let root := dirname (dirname tocPath)
  let cfgText ← env.readFileUtf8 (pathJoin root ("_config.yml"))
  let config ← env.parseConfigYaml cfgText
  let tocText ← env.readFileUtf8 tocPath
  let toc ← env.parseTocYaml tocText
  pure (mkBookTreeItem env config.title root (flattenArray toc) (Sum.inl toc)
    BookTreeItemType.Book ("resources/light/book.svg") ("resources/dark/book_inverse.svg"))

/-- The error message shown when a `getBooks` iteration throws. -/
def bookErrorEffect (env : Env) (tocPath e : String) : Effect :=
  Effect.errorMessage (localizeTwo env ("openConfigFileError")
    ("Open file \x7b0\x7d failed: \x7b1\x7d")
    (pathJoin (dirname (dirname tocPath)) ("_config.yml")) e)

/-- `BookTreeViewProvider.getBooks`: one guarded iteration per collected toc
path; a failing iteration contributes an error-message effect instead of a
book. -/
def getBooks (env : Env) (tocPaths : List String) : List BookTreeItem × List Effect :=
  tocPaths.foldl
    (fun acc p =>
      jsTry
        (do
          let b ← buildBook env p
          pure (acc.1 ++ [b], acc.2))
        (fun e => (acc.1, acc.2 ++ [bookErrorEffect env p e])))
    ([], [])

/-- The provider's `_allNotebooks` map, `fsPath` keys to items. -/
abbrev NotebookMap := String → Option BookTreeItem

def mapInsert (m : NotebookMap) (k : String) (v : BookTreeItem) : NotebookMap :=
  fun x => if x = k then some v else m x

def emptyNotebookMap : NotebookMap := fun _ => none

def externalLinkItem (env : Env) (toc : List TocSection) (root : String)
    (s : TocSection) : BookTreeItem :=
  mkBookTreeItem env s.title root toc (Sum.inr s) BookTreeItemType.ExternalLink
    ("resources/light/link.svg") ("resources/dark/link_inverse.svg")

def notebookItem (env : Env) (toc : List TocSection) (root : String)
    (s : TocSection) : BookTreeItem :=
  mkBookTreeItem env s.title root toc (Sum.inr s) BookTreeItemType.Notebook
    ("resources/light/notebook.svg") ("resources/dark/notebook_inverse.svg")

def markdownItem (env : Env) (toc : List TocSection) (root : String)
    (s : TocSection) : BookTreeItem :=
  mkBookTreeItem env s.title root toc (Sum.inr s) BookTreeItemType.Markdown
    ("resources/light/markdown.svg") ("resources/dark/markdown_inverse.svg")

/-- `path.join(root, 'content', url.concat(ext))`. -/
def contentFilePath (root url ext : String) : String :=
  pathJoin (pathJoin root ("content")) (url ++ ext)

def missingFileEffect (env : Env) (title : String) : Effect :=
  Effect.errorMessage (localizeOne env ("missingFileError")
    ("Missing file : \x7b0\x7d") title)

/-- `BookTreeViewProvider.getSections`: classify each entry with a truthy
`url`; notebooks are recorded in the `_allNotebooks` map under the full path
of the `.ipynb` file. Returns the items, the updated map and the emitted
error-message effects. -/
def getSections (env : Env) (tableOfContents : List TocSection)
    (sections : List TocSection) (root : String) (nbMap : NotebookMap) :
    List BookTreeItem × NotebookMap × List Effect :=
  match sections with
  | [] => ([], nbMap, [])
  | s :: rest =>
    match s.url with
    | some url =>
      if url != "" then
        if s.external then
          let item := externalLinkItem env tableOfContents root s
          let (items, m, effs) := getSections env tableOfContents rest root nbMap
          (item :: items, m, effs)
        else
          let pathToNotebook := contentFilePath root url (".ipynb")
          let pathToMarkdown := contentFilePath root url (".md")
          -- if both the .ipynb and the .md exist, only the notebook is shown
          if env.existsSync pathToNotebook then
            let item := notebookItem env tableOfContents root s
            let (items, m, effs) := getSections env tableOfContents rest root
              (mapInsert nbMap pathToNotebook item)
            (item :: items, m, effs)
          else if env.existsSync pathToMarkdown then
            let item := markdownItem env tableOfContents root s
            let (items, m, effs) := getSections env tableOfContents rest root nbMap
            (item :: items, m, effs)
          else
            let (items, m, effs) := getSections env tableOfContents rest root nbMap
            (items, m, missingFileEffect env s.title :: effs)
      else
        getSections env tableOfContents rest root nbMap
    | none =>
      getSections env tableOfContents rest root nbMap

structure NavigationResult where
  hasNavigation : Bool
  previous : Option String
  next : Option String
deriving Repr

/-- JS truthiness of `notebook.previousUri ? Uri.file(previousUri) : undefined`
(a URI is modelled by its fsPath; the empty string is falsy). -/
def truthyUri : Option String → Option String
  | some s => if s = "" then none else some s
  | none => none

/-- `BookTreeViewProvider.getNavigation`, keyed by `uri.fsPath`. -/
def getNavigation (nbMap : NotebookMap) (uriFsPath : String) : NavigationResult :=
  match nbMap uriFsPath with
  | some notebook =>
    { hasNavigation := true, previous := truthyUri notebook.previousUri,
      next := truthyUri notebook.nextUri }
  | none => { hasNavigation := false, previous := none, next := none }

/-- The provider state the table-of-contents and navigation operations touch. -/
structure ProviderState where
  tableOfContentPaths : List String
  allNotebooks : NotebookMap

/-- The `maxBookSearchDepth` normalization at the top of
`getTableOfContentFiles`: undefined or negative selects the default 5, zero
selects an unlimited depth (`undefined`), anything else passes through. -/
def normalizeDepth : Option Int → Option Int
  | none => some 5
  | some v => if v < 0 then some 5 else if v = 0 then none else some v

/-- `path.join(workspacePath, '**', '_data', 'toc.yml').replace(/\\/g, '/')`. -/
def tocPattern (folder : String) : String :=
  replaceBackslashSlash (pathJoin (pathJoin (pathJoin folder ("**")) ("_data")) ("toc.yml"))

/-- `BookTreeViewProvider.getTableOfContentFiles`: glob each workspace folder,
append the matches to `_tableOfContentPaths`, set the `bookOpened` context key
from the resulting list, and fire `onReadAllTOCFiles`. -/
def getTableOfContentFiles (env : Env) (st : ProviderState)
    (workspaceFolders : List String) : ProviderState × List Effect :=
  let maxDepth := normalizeDepth env.maxBookSearchDepth
  let newPaths := workspaceFolders.foldl
    (fun acc folder => acc ++ env.globSearch (tocPattern folder) maxDepth)
    st.tableOfContentPaths
  let bookOpened : Bool := decide (0 < newPaths.length)
  ({ st with tableOfContentPaths := newPaths },
   [Effect.setContext ("bookOpened") bookOpened, Effect.fireReadAllTOCFiles])

/-- `BookTreeViewProvider.refresh`: reset `_tableOfContentPaths`, re-collect
the toc files, then fire `_onDidChangeTreeData`. The `_allNotebooks` map is
not touched. -/
def refresh (env : Env) (st : ProviderState) (workspaceFolders : List String) :
    ProviderState × List Effect :=
  let st1 := { st with tableOfContentPaths := [] }
  let (st2, effs) := getTableOfContentFiles env st1 workspaceFolders
  (st2, effs ++ [Effect.fireDidChangeTreeData])

/-- The state-changing operations of the provider. -/
inductive ProviderOp : Type where
  | refreshOp (folders : List String)
  | tocFilesOp (folders : List String)
  | sectionsOp (tableOfContents : List TocSection) (sections : List TocSection)
      (root : String)

def applyOp (env : Env) (st : ProviderState) : ProviderOp → ProviderState
  | .refreshOp fs => (refresh env st fs).1
  | .tocFilesOp fs => (getTableOfContentFiles env st fs).1
  | .sectionsOp toc secs root =>
    { st with allNotebooks := (getSections env toc secs root st.allNotebooks).2.1 }

def applyOps (env : Env) (st : ProviderState) (ops : List ProviderOp) : ProviderState :=
  ops.foldl (applyOp env) st

/-!  The browser JSON language-client bootstrap (`jsonClientMain.ts`). -/

/-- Environment of `activate`: the fallible wiring steps inside its `try`
block. Building the `newLanguageClient` closure and the `http` request-service
object literal cannot throw; creating the worker and starting the client can. -/
structure ActivateEnv where
  asAbsolutePath : String → String
  newWorker : String → Except String Unit
  startLanguageClient : Except String Unit

/-- `activate` of the browser JSON language client: the whole wiring block is
inside `try { ... } catch (e) { console.log(e); }`. -/
def activate (env : ActivateEnv) : Except String (List Effect) :=
  let serverMain := env.asAbsolutePath ("server/dist/browser/jsonServerMain.js")
  Except.ok (jsTry
    (do
      let _ ← env.newWorker serverMain
      let _ ← env.startLanguageClient
      pure ([] : List Effect))
    (fun e => [Effect.consoleLog e]))

/-- A concrete environment in which every file operation fails, used to
instantiate the theorems at concrete inputs. -/
def envEmpty : Env :=
  { openTextDocument := fun r => Except.error ("ENOENT " ++ r),
    readFileUtf8 := fun p => Except.error ("ENOENT " ++ p),
    parseConfigYaml := fun _ => Except.error ("invalid yaml"),
    parseTocYaml := fun _ => Except.error ("invalid yaml"),
    existsSync := fun _ => false,
    globSearch := fun _ _ => [],
    maxBookSearchDepth := none,
    openExternalResult := fun _ => Except.ok (),
    asAbsolutePath := fun p => p,
    nlsBundle := fun _ d => d,
    prevUriOf := fun _ _ => none,
    nextUriOf := fun _ _ => none }

/-!  The welcome-page template (az_data_welcome_page.ts). -/

/-- One character of HTML escaping. -/
def escapeHtmlChar (c : Char) : String :=
  if c = '&' then "&amp;"
  else if c = '<' then "&lt;"
  else if c = '>' then "&gt;"
  else if c = '"' then "&quot;"
  else if c = Char.ofNat 39 then "&#39;"
  else String.singleton c

/-- Modelled from the spec: `escape` from vs/base/common/strings is not part
of the shown source; the spec states that localized messages are substituted
into the welcome-page template only after being HTML-escaped via `escape`.
Modelled as standard HTML entity escaping, character by character. -/
def escape (s : String) : String :=
  String.join (s.data.map escapeHtmlChar)
def wpChunk0 : String := "\n<div class=\"welcomePageContainer\">\n\t<div class=\"welcomePage\">\n\t\t<div class=\"ads-homepage splash\">\n\t\t\t<div class=\"gradient\">\n\t\t\t\t<div class=\"preview-text tool-tip\">\n\t\t\t\t\t<div class=\"tool-tip-container\" id=\"tool-tip-container-wide\">\n\t\t\t\t\t\t<a class=\"ads-welcome-page-link\" aria-describedby=\"tooltip-text-wide\" id=\"preview-link-wide\" class=\"preview-link\" tabindex=\"0\" name=\"preview\"><p>Preview</p><i class=\"icon-info themed-icon\"></i></a>\n\t\t\t\t\t\t<span role=\"tooltip\" id=\"tooltip-text-wide\" class=\"tool-tip-text\" aria-hidden=\"true\">\n\t\t\t\t\t\t\t<h3 tabindex=\"0\" class=\"preview-tooltip-header\">"
def wpChunk1 : String := "</h3>\n\t\t\t\t\t\t\t<p tabindex=\"0\" class=\"preview-tooltip-body\">"
def wpChunk2 : String := "</p>\n\t\t\t\t\t\t</span>\n\t\t\t\t\t</div>\n\t\t\t\t\t<div class=\"tool-tip-container\" id=\"tool-tip-container-narrow\">\n\t\t\t\t\t\t<a class=\"ads-welcome-page-link\" aria-haspopup=\"true\" class=\"preview-link\" tabindex=\"0\" id=\"preview-link-narrow\" name=\"previewNarrow\"><p>Preview</p><i class=\"icon-info themed-icon\"></i></a>\n\t\t\t\t\t</div>\n\t\t\t\t</div>\n\t\t\t\t<div id=\"preview-modal\" class=\"modal\" aria-modal=\"true\" aria-hidden=\"true\">\n\t\t\t\t\t<div class=\"modal-content\">\n\t\t\t\t\t\t<span class=\"close-icon\">x</span>\n\t\t\t\t\t\t<h3 tabindex=\"0\" class=\"preview-modal-header\">"
def wpChunk3 : String := "</h3>\n\t\t\t\t\t\t<p tabindex=\"0\" class=\"preview-modal-body\">"
def wpChunk4 : String := "</p>\n\t\t\t\t\t</div>\n\t\t\t\t</div>\n\t\t\t\t<div class=\"ads-homepage-section section header hero\">\n\t\t\t\t\t<div class=\"row start\">\n\t\t\t\t\t\t<div class=\"header-top-nav\">\n\t\t\t\t\t\t\t<div class=\"flex\">\n\t\t\t\t\t\t\t\t<div class=\"icon sm\"></div>\n\t\t\t\t\t\t\t\t<div class=\"title\">\n\t\t\t\t\t\t\t\t\t<div class=\"caption-container\">\n\t\t\t\t\t\t\t\t\t\t<span class=\"icon xs\"></span><h1 class=\"caption\"></h1>\n\t\t\t\t\t\t\t\t\t</div>\n\t\t\t\t\t\t\t\t\t<div class=\"flex btn-container\">\n\t\t\t\t\t\t\t\t\t\t<div>\n\t\t\t\t\t\t\t\t\t\t\t<button id=\"dropdown-btn\" class=\"btn btn-primary dropdown\" role=\"navigation\" aria-haspopup=\"true\" aria-controls=\"dropdown\">\n\t\t\t\t\t\t\t\t\t\t\t\t<div class=\"dropdown-text\" style=\"pointer-events: none;\">\n\t\t\t\t\t\t\t\t\t\t\t\t\t<span>"
def wpChunk5 : String := "</span><i class=\"icon-arrow-down\"></i>\n\t\t\t\t\t\t\t\t\t\t\t\t</div>\n\t\t\t\t\t\t\t\t\t\t\t</button>\n\t\t\t\t\t\t\t\t\t\t\t<nav role=\"navigation\" class=\"dropdown-nav\">\n\t\t\t\t\t\t\t\t\t\t\t\t<ul id=\"dropdown\" class=\"dropdown-content\" aria-hidden=\"true\" aria-label=\"submenu\" role=\"menu\" aria-labelledby=\"dropdown-btn\">\n\t\t\t\t\t\t\t\t\t\t\t\t\t<li role=\"none\"><a class=\"ads-welcome-page-link\" role=\"menuitem\" tabIndex=\"-1\" class=\"move\" href=\"command:registeredServers.addConnection\">"
def wpChunk6 : String := "</a></li>\n\t\t\t\t\t\t\t\t\t\t\t\t\t<li role=\"none\"><a class=\"ads-welcome-page-link\" role=\"menuitem\" tabIndex=\"-1\" class=\"move\" href=\"command:workbench.action.files.newUntitledFile\">"
def wpChunk7 : String := "</a></li>\n\t\t\t\t\t\t\t\t\t\t\t\t\t<li role=\"none\"><a class=\"ads-welcome-page-link\" role=\"menuitem\" tabIndex=\"-1\" class=\"move\" href=\"command:notebook.command.new\">"
def wpChunk8 : String := "</a></li>\n\t\t\t\t\t\t\t\t\t\t\t\t\t<li role=\"none\" id=\"dropdown-mac-only\"><a class=\"ads-welcome-page-link\" role=\"menuitem\" tabIndex=\"-1\" class=\"move mac-only\" href=\"command:workbench.action.files.openLocalFileFolder\">"
def wpChunk9 : String := "</a></li>\n\t\t\t\t\t\t\t\t\t\t\t\t\t<li role=\"none\" id=\"dropdown-windows-linux-only\"><a class=\"ads-welcome-page-link\" role=\"menuitem\" tabIndex=\"-1\" class=\"move windows-only linux-only\" href=\"command:workbench.action.files.openFile\">"
def wpChunk10 : String := "</a></li>\n\t\t\t\t\t\t\t\t\t\t\t\t</ul>\n\t\t\t\t\t\t\t\t\t\t\t</nav>\n\t\t\t\t\t\t\t\t\t\t</div>\n\t\t\t\t\t\t\t\t\t\t<a class=\"windows-only linux-only btn btn-secondary\"\n\t\t\t\t\t\t\t\t\t\t\thref=\"command:workbench.action.files.openFile\">\n\t\t\t\t\t\t\t\t\t\t\t"
def wpChunk11 : String := "\n\t\t\t\t\t\t\t\t\t\t</a>\n\t\t\t\t\t\t\t\t\t\t<a class=\"mac-only btn btn-secondary\" href=\"command:workbench.action.files.openLocalFileFolder\">"
def wpChunk12 : String := "</a>\n\t\t\t\t\t\t\t\t\t</div>\n\t\t\t\t\t\t\t\t</div>\n\t\t\t\t\t\t\t</div>\n\t\t\t\t\t\t</div>\n\t\t\t\t\t</div>\n\t\t\t\t\t<div class=\"row header-bottom-nav-tiles ads-grid\">\n\t\t\t\t\t\t<div class=\"col\">\n\t\t\t\t\t\t\t<a class=\"header-bottom-nav-tile-link ads-welcome-page-link\" href=\"command:registeredServers.addConnection\">\n\t\t\t\t\t\t\t\t<div class=\"header-bottom-nav-tile tile tile-connection\">\n\t\t\t\t\t\t\t\t\t<h3>"
def wpChunk13 : String := "</h3>\n\t\t\t\t\t\t\t\t\t<p>"
def wpChunk14 : String := "</p>\n\t\t\t\t\t\t\t\t\t<div class=\"icon connection\"></div>\n\t\t\t\t\t\t\t\t</div>\n\t\t\t\t\t\t\t</a>\n\t\t\t\t\t\t</div>\n\t\t\t\t\t\t<div class=\"col\">\n\t\t\t\t\t\t\t<a class=\"header-bottom-nav-tile-link ads-welcome-page-link\"\n\t\t\t\t\t\t\t\thref=\"command:workbench.action.files.newUntitledFile\">\n\t\t\t\t\t\t\t\t<div class=\"header-bottom-nav-tile tile tile-query\">\n\t\t\t\t\t\t\t\t\t<h3>"
def wpChunk15 : String := "</h3>\n\t\t\t\t\t\t\t\t\t<p>"
def wpChunk16 : String := "</p>\n\t\t\t\t\t\t\t\t\t<div class=\"icon query\"></div>\n\t\t\t\t\t\t\t\t</div>\n\t\t\t\t\t\t\t</a>\n\t\t\t\t\t\t</div>\n\t\t\t\t\t\t<div class=\"col\">\n\t\t\t\t\t\t\t<a class=\"header-bottom-nav-tile-link ads-welcome-page-link\" href=\"command:notebook.command.new\">\n\t\t\t\t\t\t\t\t<div class=\"header-bottom-nav-tile tile tile-notebook\">\n\t\t\t\t\t\t\t\t\t<h3>"
def wpChunk17 : String := "</h3>\n\t\t\t\t\t\t\t\t\t<p>"
def wpChunk18 : String := "</p>\n\t\t\t\t\t\t\t\t\t<div class=\"icon notebook\"></div>\n\t\t\t\t\t\t\t\t</div>\n\t\t\t\t\t\t\t</a>\n\t\t\t\t\t\t</div>\n\t\t\t\t\t\t<div class=\"col\">\n\t\t\t\t\t\t\t<a class=\"header-bottom-nav-tile-link ads-welcome-page-link\" href=\"command:azdata.resource.deploy\">\n\t\t\t\t\t\t\t\t<div class=\"header-bottom-nav-tile tile tile-server\">\n\t\t\t\t\t\t\t\t\t<h3>"
def wpChunk19 : String := "</h3>\n\t\t\t\t\t\t\t\t\t<p>"
def wpChunk20 : String := "</p>\n\t\t\t\t\t\t\t\t\t<div class=\"icon server\"></div>\n\t\t\t\t\t\t\t\t</div>\n\t\t\t\t\t\t\t</a>\n\t\t\t\t\t\t</div>\n\t\t\t\t\t</div>\n\t\t\t\t</div>\n\t\t\t</div>\n\t\t\t<div class=\"ads-homepage-section middle-section content row ads-grid\">\n\t\t\t\t<div class=\"resources-container\">\n\t\t\t\t\t<h2>"
def wpChunk21 : String := "</h2>\n\t\t\t\t\t<div class=\"tabs\">\n\t\t\t\t\t\t<input class=\"input\" name=\"tabs\" type=\"radio\" id=\"tab-1\" checked=\"checked\" />\n\t\t\t\t\t\t<label class=\"label\" for=\"tab-1\" tabIndex=\"0\">"
def wpChunk22 : String := "</label>\n\t\t\t\t\t\t<div class=\"panel\">\n\t\t\t\t\t\t\t<div class=\"recent history\">\n\t\t\t\t\t\t\t\t<div class=\"flex list-header-container\">\n\t\t\t\t\t\t\t\t\t<i class=\"icon-document themed-icon\"></i>\n\t\t\t\t\t\t\t\t\t<h4 class=\"list-header\">"
def wpChunk23 : String := "</h4>\n\t\t\t\t\t\t\t\t\t<h4 class=\"list-header-last-opened\">"
def wpChunk24 : String := "</h4>\n\t\t\t\t\t\t\t\t</div>\n\t\t\t\t\t\t\t\t<ul class=\"list\">\n\t\t\t\t\t\t\t\t\t<!-- Filled programmatically -->\n\t\t\t\t\t\t\t\t</ul>\n\t\t\t\t\t\t\t\t<p class=\"none detail\">No recent folders</p>\n\t\t\t\t\t\t\t\t<ul class=\"moreRecent-list\">\n\t\t\t\t\t\t\t\t\t<li class=\"moreRecent\">\n\t\t\t\t\t\t\t\t\t\t<a class=\"ads-welcome-page-link\" href=\"command:workbench.action.openRecent\">"
def wpChunk25 : String := "\n\t\t\t\t\t\t\t\t\t\t\t<i class=\"icon-arrow-down-dark\"></i>\n\t\t\t\t\t\t\t\t\t\t</a>\n\t\t\t\t\t\t\t\t\t</li>\n\t\t\t\t\t\t\t\t</ul>\n\t\t\t\t\t\t\t</div>\n\t\t\t\t\t\t</div>\n\t\t\t\t\t</div>\n\t\t\t\t\t<p class=\"showOnStartup\"><input type=\"checkbox\" id=\"showOnStartup\" class=\"checkbox\">\n\t\t\t\t\t\t<label for=\"showOnStartup\">"
def wpChunk26 : String := "</label>\n\t\t\t\t\t</p>\n\t\t\t\t</div>\n\t\t\t\t<div class=\"getting-started-container\">\n\t\t\t\t\t<div class=\"links\">\n\t\t\t\t\t\t<h2>"
def wpChunk27 : String := "</h2>\n\t\t\t\t\t\t<div class=\"link-header\">\n\t\t\t\t\t\t\t<a class=\"link ads-welcome-page-link\"\n\t\t\t\t\t\t\t\thref=\"https://aka.ms/get-started-azdata\">"
def wpChunk28 : String := "<span class=\"icon-link themed-icon-alt\"></a>\n\t\t\t\t\t\t</div>\n\t\t\t\t\t\t<p>\n\t\t\t\t\t\t"
def wpChunk29 : String := "\n\t\t\t\t\t\t</p>\n\t\t\t\t\t\t<div class=\"link-header\">\n\t\t\t\t\t\t\t<a class=\"link ads-welcome-page-link\"\n\t\t\t\t\t\t\t\thref=\"command:workbench.action.openDocumentationUrl\">"
def wpChunk30 : String := "<span class=\"icon-link themed-icon-alt\"</a></a>\n\t\t\t\t\t\t</div>\n\t\t\t\t\t\t<p>"
def wpChunk31 : String := "\n\t\t\t\t\t\t</p>\n\n\n\t\t\t\t\t\t<div class=\"videos-container row\">\n\t\t\t\t\t\t\t<h2>Videos</h2>\n\t\t\t\t\t\t\t<div class=\"flex flex-container-video\">\n\t\t\t\t\t\t\t\t<div class=\"videos-container-video\">\n\t\t\t\t\t\t\t\t\t<a href=\"https://www.youtube.com/watch?v=Orv7fptVoUA\" class=\"video overview ads-welcome-page-link\">\n\t\t\t\t\t\t\t\t\t<img src=\""
def wpChunk32 : String := "\" class=\"video-overview\" id=\"video-overview\" />\n\t\t\t\t\t\t\t\t\t\t<h4>"
def wpChunk33 : String := "</h4>\n\t\t\t\t\t\t\t\t\t</a>\n\n\t\t\t\t\t\t\t\t</div>\n\t\t\t\t\t\t\t\t<div class=\"videos-container-video\">\n\t\t\t\t\t\t\t\t\t<a href=\"https://www.youtube.com/watch?v=Nt4kIHQ0IOc\" class=\"video overview ads-welcome-page-link\">\n\t\t\t\t\t\t\t\t\t<img src=\""
def wpChunk34 : String := "\" class=\"video-introduction\" id=\"video-introduction\" />\n\t\t\t\t\t\t\t\t\t\t<h4>"
def wpChunk35 : String := "</h4>\n\t\t\t\t\t\t\t\t\t</a>\n\t\t\t\t\t\t\t\t</div>\n\t\t\t\t\t\t\t</div>\n\t\t\t\t\t\t</div>\n\t\t\t\t\t</div>\n\t\t\t\t</div>\n\t\t\t</div>\n\t\t\t<div class=\"ads-homepage-section content extensions\">\n\t\t\t\t<div class=\"flex flex-j-between\">\n\t\t\t\t\t<h2>Extend your data studio</h2>\n\t\t\t\t\t<a class=\"link-show-all flex ads-welcome-page-link\" href=\"command:extensions.listView.focus\">"
def wpChunk36 : String := " <span class=\"icon-arrow-right\"></span></a>\n\t\t\t\t</div>\n\t\t\t\t<div class=\"row ads-grid grip-gap-50\">\n\t\t\t\t\t<div\n\t\t\t\t\t\tclass=\"ads-grid tile no-hover extension-pack\">\n\t\t\t\t\t\t<div class=\"extension-pack-description\">\n\t\t\t\t\t\t\t<div class=\"extension-pack-header\"></div>\n\t\t\t\t\t\t\t<p class=\"extension-pack-body\"></p>\n\t\t\t\t\t\t</div>\n\t\t\t\t\t\t<div class=\"extension-pack-extensions flex flex-d-column flex-j-evenly flex-a-start\">\n\t\t\t\t\t\t\t<div class=\"extension-pack-extension-list flex flex-d-column flex-j-evenly flex-a-start\"></div>\n\t\t\t\t\t\t\t<div class=\"flex flex-j-end extension-pack-btn-container flex flex-j-between flex-a-center\"\">\n\t\t\t\t\t\t\t<div class=\"extensionPack\" href=\"#\"></div>\n\t\t\t\t\t\t\t<a class=\"a-self-end link-learn-more flex flex-a-center ads-welcome-page-link\" href=\"command:azdata.extension.open?%7B%22id%22%3A%22microsoft.admin-pack%22%7D\">"
def wpChunk37 : String := "<span class=\"icon-arrow-right\"></span></a>\n\t\t\t\t\t\t</div>\n\t\t\t\t\t</div>\n\t\t\t\t</div>\n\t\t\t\t<div class=\"extension-list flex flex-d-column\">\n\t\t\t\t\t<!-- Dynamically populated -->\n\t\t\t\t</div>\n\t\t\t\t<br /><br /><br />\n\t\t\t</div>\n\t\t</div>\n\t</div>\n</div>\n"

/-- The welcome-page template with an arbitrary message substitution `msg`
(applied to each localization key and default) and `toUrl` for `require.toUrl`. -/
def welcomePageFrom (msg : String → String → String) (toUrl : String → String) : String :=
  wpChunk0 ++
  msg ("welcomePage.previewHeader") ("This page is in preview") ++
  wpChunk1 ++
  msg ("welcomePage.previewBody") ("Preview features introduce new functionalities that are on track to becoming a permanent part the product. They are stable, but need additional accessibility improvements. We welcome your early feedback while they are under development.") ++
  wpChunk2 ++
  msg ("welcomePage.previewHeader") ("This page is in preview") ++
  wpChunk3 ++
  msg ("welcomePage.previewBody") ("Preview features introduce new functionalities that are on track to becoming a permanent part the product. They are stable, but need additional accessibility improvements. We welcome your early feedback while they are under development.") ++
  wpChunk4 ++
  msg ("welcomePage.new") ("New") ++
  wpChunk5 ++
  msg ("welcomePage.newConnection") ("New connection") ++
  wpChunk6 ++
  msg ("welcomePage.newQuery") ("New query") ++
  wpChunk7 ++
  msg ("welcomePage.newNotebook") ("New notebook") ++
  wpChunk8 ++
  msg ("welcomePage.openFileMac") ("Open file") ++
  wpChunk9 ++
  msg ("welcomePage.openFileLinuxPC") ("Open file") ++
  wpChunk10 ++
  msg ("welcomePage.openFileLinuxPC") ("Open file") ++
  wpChunk11 ++
  msg ("welcomePage.openFileMac") ("Open file") ++
  wpChunk12 ++
  msg ("welcomePage.createConnection") ("Create a connection") ++
  wpChunk13 ++
  msg ("welcomePage.createConnectionBody") ("Connect to a database instance through the connection dialog.") ++
  wpChunk14 ++
  msg ("welcomePage.runQuery") ("Run a query") ++
  wpChunk15 ++
  msg ("welcomePage.runQueryBody") ("Interact with data through a query editor.") ++
  wpChunk16 ++
  msg ("welcomePage.createNotebook") ("Create a notebook") ++
  wpChunk17 ++
  msg ("welcomePage.createNotebookBody") ("Build a new notebook using a native notebook editor.") ++
  wpChunk18 ++
  msg ("welcomePage.deployServer") ("Deploy a server") ++
  wpChunk19 ++
  msg ("welcomePage.deployServerBody") ("Create a new instance of SQL Server on the platform of your choice.") ++
  wpChunk20 ++
  msg ("welcomePage.resources") ("Resources") ++
  wpChunk21 ++
  msg ("welcomePage.history") ("History") ++
  wpChunk22 ++
  msg ("welcomePage.name") ("Name") ++
  wpChunk23 ++
  msg ("welcomePage.lastOpened") ("Last Opened") ++
  wpChunk24 ++
  msg ("welcomePage.moreRecent") ("Show more") ++
  wpChunk25 ++
  msg ("welcomePage.showOnStartup") ("Show welcome page on startup") ++
  wpChunk26 ++
  msg ("welcomePage.usefuLinks") ("Useful Links") ++
  wpChunk27 ++
  msg ("welcomePage.gettingStarted") ("Getting Started") ++
  wpChunk28 ++
  msg ("welcomePage.gettingStartedBody") ("Discover the capabilities offered by Azure Data Studio and learn how to make the most of them.") ++
  wpChunk29 ++
  msg ("welcomePage.documentation") ("Documentation") ++
  wpChunk30 ++
  msg ("welcomePage.documentationBody") ("Visit the documentation center for quickstarts, how-to guides, and references for PowerShell, APIs, etc.") ++
  wpChunk31 ++
  toUrl ("./../../media/video_overview.png") ++
  wpChunk32 ++
  msg ("welcomePage.videoDescriptionOverview") ("Overview of Azure Data Studio") ++
  wpChunk33 ++
  toUrl ("./../../media/video_introduction.png") ++
  wpChunk34 ++
  msg ("welcomePage.videoDescriptionIntroduction") ("Introduction to Azure Data Studio Notebooks | Data Exposed") ++
  wpChunk35 ++
  msg ("welcomePage.showAll") ("Show All") ++
  wpChunk36 ++
  msg ("welcomePage.learnMore") ("Learn more ") ++
  wpChunk37

/-- The default export of az_data_welcome_page.ts: the HTML template string,
parameterized by the `localize` function from vs/nls and `require.toUrl`. -/
def welcomePage (localize : String → String → String) (requireToUrl : String → String) : String :=
  wpChunk0 ++
  escape (localize ("welcomePage.previewHeader") ("This page is in preview")) ++
  wpChunk1 ++
  escape (localize ("welcomePage.previewBody") ("Preview features introduce new functionalities that are on track to becoming a permanent part the product. They are stable, but need additional accessibility improvements. We welcome your early feedback while they are under development.")) ++
  wpChunk2 ++
  escape (localize ("welcomePage.previewHeader") ("This page is in preview")) ++
  wpChunk3 ++
  escape (localize ("welcomePage.previewBody") ("Preview features introduce new functionalities that are on track to becoming a permanent part the product. They are stable, but need additional accessibility improvements. We welcome your early feedback while they are under development.")) ++
  wpChunk4 ++
  escape (localize ("welcomePage.new") ("New")) ++
  wpChunk5 ++
  escape (localize ("welcomePage.newConnection") ("New connection")) ++
  wpChunk6 ++
  escape (localize ("welcomePage.newQuery") ("New query")) ++
  wpChunk7 ++
  escape (localize ("welcomePage.newNotebook") ("New notebook")) ++
  wpChunk8 ++
  escape (localize ("welcomePage.openFileMac") ("Open file")) ++
  wpChunk9 ++
  escape (localize ("welcomePage.openFileLinuxPC") ("Open file")) ++
  wpChunk10 ++
  escape (localize ("welcomePage.openFileLinuxPC") ("Open file")) ++
  wpChunk11 ++
  escape (localize ("welcomePage.openFileMac") ("Open file")) ++
  wpChunk12 ++
  escape (localize ("welcomePage.createConnection") ("Create a connection")) ++
  wpChunk13 ++
  escape (localize ("welcomePage.createConnectionBody") ("Connect to a database instance through the connection dialog.")) ++
  wpChunk14 ++
  escape (localize ("welcomePage.runQuery") ("Run a query")) ++
  wpChunk15 ++
  escape (localize ("welcomePage.runQueryBody") ("Interact with data through a query editor.")) ++
  wpChunk16 ++
  escape (localize ("welcomePage.createNotebook") ("Create a notebook")) ++
  wpChunk17 ++
  escape (localize ("welcomePage.createNotebookBody") ("Build a new notebook using a native notebook editor.")) ++
  wpChunk18 ++
  escape (localize ("welcomePage.deployServer") ("Deploy a server")) ++
  wpChunk19 ++
  escape (localize ("welcomePage.deployServerBody") ("Create a new instance of SQL Server on the platform of your choice.")) ++
  wpChunk20 ++
  escape (localize ("welcomePage.resources") ("Resources")) ++
  wpChunk21 ++
  escape (localize ("welcomePage.history") ("History")) ++
  wpChunk22 ++
  escape (localize ("welcomePage.name") ("Name")) ++
  wpChunk23 ++
  escape (localize ("welcomePage.lastOpened") ("Last Opened")) ++
  wpChunk24 ++
  escape (localize ("welcomePage.moreRecent") ("Show more")) ++
  wpChunk25 ++
  escape (localize ("welcomePage.showOnStartup") ("Show welcome page on startup")) ++
  wpChunk26 ++
  escape (localize ("welcomePage.usefuLinks") ("Useful Links")) ++
  wpChunk27 ++
  escape (localize ("welcomePage.gettingStarted") ("Getting Started")) ++
  wpChunk28 ++
  escape (localize ("welcomePage.gettingStartedBody") ("Discover the capabilities offered by Azure Data Studio and learn how to make the most of them.")) ++
  wpChunk29 ++
  escape (localize ("welcomePage.documentation") ("Documentation")) ++
  wpChunk30 ++
  escape (localize ("welcomePage.documentationBody") ("Visit the documentation center for quickstarts, how-to guides, and references for PowerShell, APIs, etc.")) ++
  wpChunk31 ++
  requireToUrl ("./../../media/video_overview.png") ++
  wpChunk32 ++
  escape (localize ("welcomePage.videoDescriptionOverview") ("Overview of Azure Data Studio")) ++
  wpChunk33 ++
  requireToUrl ("./../../media/video_introduction.png") ++
  wpChunk34 ++
  escape (localize ("welcomePage.videoDescriptionIntroduction") ("Introduction to Azure Data Studio Notebooks | Data Exposed")) ++
  wpChunk35 ++
  escape (localize ("welcomePage.showAll") ("Show All")) ++
  wpChunk36 ++
  escape (localize ("welcomePage.learnMore") ("Learn more ")) ++
  wpChunk37

/-!  Concrete data used to instantiate theorems with hypotheses. -/

def demoSection : TocSection := TocSection.mk ("Notebook One") (some "nb") false none

def demoItem : BookTreeItem := notebookItem envEmpty [] ("b") demoSection

/-- A provider state whose `_allNotebooks` map caches one notebook. -/
def stDemo : ProviderState :=
  { tableOfContentPaths := ["b/_data/toc.yml"],
    allNotebooks := mapInsert emptyNotebookMap ("b/content/nb.ipynb") demoItem }

/-- An activation environment whose worker construction throws. -/
def activateEnvFail : ActivateEnv :=
  { asAbsolutePath := fun p => p,
    newWorker := fun _ => Except.error ("worker creation failed"),
    startLanguageClient := Except.ok () }
/-- On a resource change, `runThrottledAction` clears the stored timer and
runs the action immediately. -/
theorem runThrottledAction_change (st : ThrottleState) (r : String)
    (h : (some r != st.resource) = true) :
    runThrottledAction st r
      = { st with pendingTimers := clearTimeoutJs st.pendingTimers st.throttleTimer,
                  throttleTimer := none, resource := some r,
                  executed := st.executed ++ [r] } := by
  simp [runThrottledAction, h]

/-- With the same resource and no stored timer, `runThrottledAction` schedules
one deferred execution. -/
theorem runThrottledAction_same_schedule (st : ThrottleState) (r : String)
    (h : (some r != st.resource) = false) (ht : st.throttleTimer = none) :
    runThrottledAction st r
      = { st with resource := some r,
                  pendingTimers := st.pendingTimers ++ [(st.nextTimerId, r)],
                  throttleTimer := some st.nextTimerId,
                  nextTimerId := st.nextTimerId + 1 } := by
  simp [runThrottledAction, h, ht]

/-- With the same resource and a stored timer id (pending or already fired),
`runThrottledAction` neither runs nor schedules anything. -/
theorem runThrottledAction_same_noop (st : ThrottleState) (r : String) (t : Nat)
    (h : (some r != st.resource) = false) (ht : st.throttleTimer = some t) :
    runThrottledAction st r = { st with resource := some r } := by
  simp [runThrottledAction, h, ht]

theorem throttleInv_init : ThrottleInv throttleInit := Or.inl rfl

theorem throttleInv_step (st : ThrottleState) (e : MarkdownEvent)
    (h : ThrottleInv st) : ThrottleInv (throttleStep st e) := by
  cases e with
  | timerFires =>
    rcases h with h | ⟨id, r, hp, ht⟩
    · simp only [throttleStep, fireThrottleTimer, h]
      exact Or.inl h
    · simp only [throttleStep, fireThrottleTimer, hp]
      exact Or.inl rfl
  | openMarkdown r =>
    show ThrottleInv (runThrottledAction st r)
    rcases hch : (some r != st.resource) with _ | _
    · -- no resource change
      rcases htt : st.throttleTimer with _ | id
      · -- no stored timer: the invariant forces an empty pending set
        rw [runThrottledAction_same_schedule st r hch htt]
        rcases h with h | ⟨id', r', _, ht'⟩
        · exact Or.inr ⟨st.nextTimerId, r, by simp [h], rfl⟩
        · rw [htt] at ht'; exact absurd ht' (by simp)
      · rw [runThrottledAction_same_noop st r id hch htt]
        rcases h with h | ⟨id', r', hp, ht'⟩
        · exact Or.inl h
        · exact Or.inr ⟨id', r', hp, ht'⟩
    · -- resource change: clear the stored timer, then run the action now
      rw [runThrottledAction_change st r hch]
      rcases h with h | ⟨id, r', hp, ht⟩
      · cases htt : st.throttleTimer <;>
          exact Or.inl (by simp [h, clearTimeoutJs])
      · rw [hp, ht]
        exact Or.inl (by simp [clearTimeoutJs])

theorem throttleInv_run (st : ThrottleState) (evs : List MarkdownEvent)
    (h : ThrottleInv st) : ThrottleInv (throttleRun st evs) := by
  induction evs generalizing st with
  | nil => exact h
  | cons e rest ih => exact ih _ (throttleInv_step st e h)

/-- C7: across every sequence of `openMarkdown` calls and timer firings, the
provider holds at most one pending debounce timer, so at most one preview
action is ever scheduled for the future. -/
theorem openMarkdown_at_most_one_pending_timer (evs : List MarkdownEvent) :
    (throttleRun throttleInit evs).pendingTimers.length ≤ 1 := by
  rcases throttleInv_run throttleInit evs throttleInv_init with h | ⟨id, r, hp, _⟩
  · simp [h]
  · simp [hp]

/-- C1 counterexample: starting from the initial provider state, two
successive `openMarkdown` calls with the same resource `"a"` (the second made
while no debounce timer has fired) followed by the firing of the timer the
second call scheduled execute the markdown-preview action twice — once
immediately at the first call and once at the timer — not once. -/
theorem openMarkdown_twice_executes_twice :
    (throttleRun throttleInit
        [.openMarkdown ("a"), .openMarkdown ("a"), .timerFires]).executed
      = ["a", "a"] ∧
    ¬ ((throttleRun throttleInit
        [.openMarkdown ("a"), .openMarkdown ("a"), .timerFires]).executed.length
        = 1) := by
  refine ⟨rfl, ?_⟩
  intro h
  rw [show (throttleRun throttleInit
      [.openMarkdown ("a"), .openMarkdown ("a"), .timerFires]).executed
      = ["a", "a"] from rfl] at h
  simp at h

/-- C1 amended: two successive `openMarkdown` calls with the same resource
execute the preview action exactly once at call time (immediately, at the
first call); the second call only schedules a single deferred execution, which
runs the action once more when the 300 ms timer fires. -/
theorem openMarkdown_twice_behaviour (r : String) :
    (throttleRun throttleInit [.openMarkdown r, .openMarkdown r]).executed = [r] ∧
    (throttleRun throttleInit [.openMarkdown r, .openMarkdown r]).pendingTimers.length
      = 1 ∧
    (throttleStep (throttleRun throttleInit [.openMarkdown r, .openMarkdown r])
        .timerFires).executed = [r, r] := by
  have h1 : throttleRun throttleInit [.openMarkdown r, .openMarkdown r]
      = { throttleTimer := some 1, resource := some r, pendingTimers := [(1, r)],
          nextTimerId := 2, executed := [r] } := by
    simp [throttleRun, throttleStep, runThrottledAction, throttleInit,
      clearTimeoutJs, List.foldl]
  refine ⟨by simp [h1], by simp [h1], by simp [h1, throttleStep, fireThrottleTimer]⟩


/-!  Helper lemmas about the provider operations. -/

theorem mapInsert_isSome (m : NotebookMap) (k p : String) (v : BookTreeItem)
    (h : (m k).isSome = true) : ((mapInsert m p v) k).isSome = true := by
  simp only [mapInsert]
  split
  · rfl
  · exact h

/-- `getSections` only ever inserts into the `_allNotebooks` map: an existing
key is never removed. -/
theorem getSections_map_isSome (env : Env) (toc : List TocSection) (root : String) :
    ∀ (secs : List TocSection) (m : NotebookMap) (k : String),
      (m k).isSome = true →
      (((getSections env toc secs root m).2.1) k).isSome = true := by
  intro secs
  induction secs with
  | nil =>
    intro m k h
    simpa [getSections] using h
  | cons s rest ih =>
    intro m k h
    rcases hu : s.url with _ | url
    · simpa [getSections, hu] using ih m k h
    · cases hne : (url != "") with
      | false => simpa [getSections, hu, hne] using ih m k h
      | true =>
        cases hex : s.external with
        | true => simpa [getSections, hu, hne, hex] using ih m k h
        | false =>
          cases hnb : env.existsSync (contentFilePath root url (".ipynb")) with
          | true =>
            simpa [getSections, hu, hne, hex, hnb] using
              ih _ k (mapInsert_isSome m k _ _ h)
          | false =>
            cases hmd : env.existsSync (contentFilePath root url (".md")) with
            | true => simpa [getSections, hu, hne, hex, hnb, hmd] using ih m k h
            | false => simpa [getSections, hu, hne, hex, hnb, hmd] using ih m k h

/-- Processing a section list decomposes into processing its head (threading
the map) and then the tail. -/
theorem getSections_cons (env : Env) (toc : List TocSection) (root : String)
    (s : TocSection) (rest : List TocSection) (m : NotebookMap) :
    getSections env toc (s :: rest) root m
      = ((getSections env toc [s] root m).1
           ++ (getSections env toc rest root ((getSections env toc [s] root m).2.1)).1,
         (getSections env toc rest root ((getSections env toc [s] root m).2.1)).2.1,
         (getSections env toc [s] root m).2.2
           ++ (getSections env toc rest root ((getSections env toc [s] root m).2.1)).2.2) := by
  rcases hu : s.url with _ | url
  · simp [getSections, hu]
  · cases hne : (url != "") with
    | false => simp [getSections, hu, hne]
    | true =>
      cases hex : s.external with
      | true => simp [getSections, hu, hne, hex]
      | false =>
        cases hnb : env.existsSync (contentFilePath root url (".ipynb")) with
        | true => simp [getSections, hu, hne, hex, hnb]
        | false =>
          cases hmd : env.existsSync (contentFilePath root url (".md")) with
          | true => simp [getSections, hu, hne, hex, hnb, hmd]
          | false => simp [getSections, hu, hne, hex, hnb, hmd]

/-- The `getBooks` fold splits into the books of the succeeding iterations and
one error message per failing iteration. -/
theorem getBooks_fold (env : Env) :
    ∀ (ps : List String) (acc : List BookTreeItem × List Effect),
      ps.foldl
        (fun acc p =>
          jsTry
            (do
              let b ← buildBook env p
              pure (acc.1 ++ [b], acc.2))
            (fun e => (acc.1, acc.2 ++ [bookErrorEffect env p e]))) acc
      = (acc.1 ++ ps.filterMap (fun p => (buildBook env p).toOption),
         acc.2 ++ ps.filterMap (fun p =>
           match buildBook env p with
           | .error e => some (bookErrorEffect env p e)
           | .ok _ => none)) := by
  intro ps
  induction ps with
  | nil => intro acc; simp
  | cons p rest ih =>
    intro acc
    rw [List.foldl_cons, ih]
    rcases hb : buildBook env p with e | b
    · simp [jsTry, hb, Except.toOption, List.filterMap_cons, List.append_assoc]
    · simp [jsTry, hb, Except.toOption, List.filterMap_cons, List.append_assoc]

/-- Accumulating glob results per folder is appending the concatenation of all
per-folder results. -/
theorem foldl_glob_join (g : String → List String) :
    ∀ (folders : List String) (init : List String),
      folders.foldl (fun acc f => acc ++ g f) init = init ++ (folders.map g).flatten := by
  intro folders
  induction folders with
  | nil => intro init; simp
  | cons f rest ih => intro init; simp [ih]

theorem decide_length_ne (l : List String) : decide (0 < l.length) = decide (l ≠ []) := by
  cases l <;> simp

/-- C2: file-reading failures surface as error message boxes and never
propagate. `openNotebook` always resolves, showing the localized
"Open file ... failed" message when opening the document throws or rejects;
`getBooks` (a total function here, since every iteration body is guarded by
`jsTry`) skips a book whose `_config.yml` or `toc.yml` read/parse fails,
shows an error message for it, and still returns the items built for the
remaining table-of-contents paths; `openExternalLink` likewise catches any
exception and shows an error message. -/
theorem bookProvider_error_handling (env : Env) (r rl : String)
    (tocPaths : List String) :
    (∀ e, env.openTextDocument r = Except.error e →
       openNotebook env r
         = [Effect.errorMessage (localizeTwo env ("openNotebookError")
             ("Open file \x7b0\x7d failed: \x7b1\x7d") r e)])
    ∧ (∀ d, env.openTextDocument r = Except.ok d →
       openNotebook env r = [Effect.showTextDocument d])
    ∧ getBooks env tocPaths
      = (tocPaths.filterMap (fun p => (buildBook env p).toOption),
         tocPaths.filterMap (fun p =>
           match buildBook env p with
           | .error e => some (bookErrorEffect env p e)
           | .ok _ => none))
    ∧ (∀ e, env.openExternalResult rl = Except.error e →
       openExternalLink env rl
         = [Effect.errorMessage (localizeTwo env ("openExternalLinkError")
             ("Open link \x7b0\x7d failed: \x7b1\x7d") rl e)]) := by
  refine ⟨?_, ?_, ?_, ?_⟩
  · intro e he; simp [openNotebook, jsTry, he]
  · intro d hd; simp [openNotebook, jsTry, hd]
  · have h := getBooks_fold env tocPaths ([], [])
    simpa [getBooks] using h
  · intro e he; simp [openExternalLink, jsTry, he]

/-- Witness for C2: in the environment where every file operation fails,
opening a notebook surfaces an error-message effect, and `getBooks` over one
toc path returns no book and one error message. -/
theorem bookProvider_error_handling_witness :
    openNotebook envEmpty ("nb.ipynb")
      = [Effect.errorMessage (localizeTwo envEmpty ("openNotebookError")
          ("Open file \x7b0\x7d failed: \x7b1\x7d") ("nb.ipynb") ("ENOENT nb.ipynb"))]
    ∧ getBooks envEmpty ["t"]
      = ([], [bookErrorEffect envEmpty ("t") ("ENOENT ./_config.yml")]) := by
  constructor
  · exact (bookProvider_error_handling envEmpty ("nb.ipynb") ("x") []).1 _ rfl
  · have h := (bookProvider_error_handling envEmpty ("nb.ipynb") ("x") ["t"]).2.2.1
    rw [h]
    rfl

/-- C3 (amended): classification of a section entry by `getSections`. An
entry with a truthy (present and non-empty) `url` yields an `ExternalLink`
item when `external` is truthy; otherwise a `Notebook` item when
`root/content/<url>.ipynb` exists (even if the `.md` also exists), else a
`Markdown` item when `root/content/<url>.md` exists, else no item and a
localized "Missing file" message naming the entry's title. Entries without a
`url` field — and, unlike the original claim, entries whose `url` is the
empty string, which JS treats as falsy — yield no item. -/
theorem getSections_classification (env : Env) (toc : List TocSection)
    (root : String) (s : TocSection) (m : NotebookMap) :
    match s.url with
    | none => getSections env toc [s] root m = ([], m, [])
    | some url =>
      if url != "" then
        if s.external then
          getSections env toc [s] root m = ([externalLinkItem env toc root s], m, [])
          ∧ (externalLinkItem env toc root s).type = BookTreeItemType.ExternalLink
        else if env.existsSync (contentFilePath root url (".ipynb")) then
          getSections env toc [s] root m
            = ([notebookItem env toc root s],
               mapInsert m (contentFilePath root url (".ipynb")) (notebookItem env toc root s),
               [])
          ∧ (notebookItem env toc root s).type = BookTreeItemType.Notebook
        else if env.existsSync (contentFilePath root url (".md")) then
          getSections env toc [s] root m = ([markdownItem env toc root s], m, [])
          ∧ (markdownItem env toc root s).type = BookTreeItemType.Markdown
        else
          getSections env toc [s] root m = ([], m, [missingFileEffect env s.title])
      else
        getSections env toc [s] root m = ([], m, []) := by
  rcases hu : s.url with _ | url
  · simp only [hu]
    simp [getSections, hu]
  · simp only [hu]
    cases hne : (url != "") with
    | false =>
      simp only [hne, Bool.false_eq_true, if_false]
      simp [getSections, hu, hne]
    | true =>
      simp only [hne, if_true]
      cases hex : s.external with
      | true =>
        simp only [hex, if_true]
        exact ⟨by simp [getSections, hu, hne, hex], rfl⟩
      | false =>
        simp only [hex, Bool.false_eq_true, if_false]
        cases hnb : env.existsSync (contentFilePath root url (".ipynb")) with
        | true =>
          simp only [hnb, if_true]
          exact ⟨by simp [getSections, hu, hne, hex, hnb], rfl⟩
        | false =>
          simp only [hnb, Bool.false_eq_true, if_false]
          cases hmd : env.existsSync (contentFilePath root url (".md")) with
          | true =>
            simp only [hmd, if_true]
            exact ⟨by simp [getSections, hu, hne, hex, hnb, hmd], rfl⟩
          | false =>
            simp only [hmd, Bool.false_eq_true, if_false]
            simp [getSections, hu, hne, hex, hnb, hmd]

/-- C3 counterexample: a section entry that has a `url` field whose value is
the empty string and a truthy `external` field produces no item at all (and no
message) — not an `ExternalLink` item as the original claim states, because
`if (sections[i].url)` treats the empty string as falsy. -/
theorem getSections_empty_url_counterexample :
    (getSections envEmpty [] [TocSection.mk ("t") (some "") true none]
        ("r") emptyNotebookMap).1 = []
    ∧ (getSections envEmpty [] [TocSection.mk ("t") (some "") true none]
        ("r") emptyNotebookMap).2.2 = []
    ∧ (TocSection.mk ("t") (some "") true none).url = some ""
    ∧ (TocSection.mk ("t") (some "") true none).external = true := by
  exact ⟨rfl, rfl, rfl, rfl⟩

/-- C4 (amended): `getTableOfContentFiles` appends, per folder in order, every
glob match of `<folder>/**/_data/toc.yml` (at the normalized configured search
depth) to the provider's table-of-contents path list, then sets the
`bookOpened` context key to true exactly when the resulting accumulated list
is non-empty (not merely when this call collected a path, which is where the
original claim fails), and finally fires the `onReadAllTOCFiles` event. The
`_allNotebooks` map is untouched. -/
theorem getTableOfContentFiles_spec (env : Env) (st : ProviderState)
    (folders : List String) :
    (getTableOfContentFiles env st folders).1.tableOfContentPaths
      = st.tableOfContentPaths
        ++ (folders.map (fun f =>
             env.globSearch (tocPattern f) (normalizeDepth env.maxBookSearchDepth))).flatten
    ∧ (getTableOfContentFiles env st folders).1.allNotebooks = st.allNotebooks
    ∧ (getTableOfContentFiles env st folders).2
      = [Effect.setContext ("bookOpened")
           (decide ((getTableOfContentFiles env st folders).1.tableOfContentPaths ≠ [])),
         Effect.fireReadAllTOCFiles] := by
  refine ⟨?_, rfl, ?_⟩
  · simp [getTableOfContentFiles, foldl_glob_join]
  · simp only [getTableOfContentFiles, decide_length_ne]

/-- C4 counterexample: with a provider state that already holds a collected
toc path and an empty workspace-folder list, the call collects nothing, yet
`bookOpened` is set to `true` — the original claim predicts `false` ("exactly
when at least one such path was collected"). -/
theorem getTableOfContentFiles_counterexample :
    (getTableOfContentFiles envEmpty
        { tableOfContentPaths := ["w/_data/toc.yml"], allNotebooks := emptyNotebookMap }
        []).2
      = [Effect.setContext ("bookOpened") true, Effect.fireReadAllTOCFiles]
    ∧ (([] : List String).map (fun f =>
         envEmpty.globSearch (tocPattern f)
           (normalizeDepth envEmpty.maxBookSearchDepth))).flatten = ([] : List String) := by
  exact ⟨rfl, rfl⟩

/-- C5: the `_allNotebooks` cache backs navigation exactly. Processing a
section list decomposes entry by entry; a single entry touches the map only in
the Notebook case, where the item is recorded under the full path of its
`.ipynb` file (Markdown and ExternalLink items are not recorded); and
`getNavigation` answers `hasNavigation = true` with previous/next derived from
the cached item's `previousUri`/`nextUri` exactly on the keys of the map, and
`{hasNavigation := false, previous := none, next := none}` elsewhere. -/
theorem notebookCache_navigation_spec (env : Env) (toc : List TocSection)
    (root : String) (s : TocSection) (rest : List TocSection) (m : NotebookMap)
    (u : String) :
    (getSections env toc (s :: rest) root m
      = ((getSections env toc [s] root m).1
           ++ (getSections env toc rest root ((getSections env toc [s] root m).2.1)).1,
         (getSections env toc rest root ((getSections env toc [s] root m).2.1)).2.1,
         (getSections env toc [s] root m).2.2
           ++ (getSections env toc rest root ((getSections env toc [s] root m).2.1)).2.2))
    ∧ (match s.url with
       | none => (getSections env toc [s] root m).2.1 = m
       | some url =>
         if url != "" then
           if s.external then (getSections env toc [s] root m).2.1 = m
           else if env.existsSync (contentFilePath root url (".ipynb")) then
             (getSections env toc [s] root m).2.1
               = mapInsert m (contentFilePath root url (".ipynb"))
                   (notebookItem env toc root s)
           else (getSections env toc [s] root m).2.1 = m
         else (getSections env toc [s] root m).2.1 = m)
    ∧ getNavigation m u
      = (match m u with
         | some nb =>
           { hasNavigation := true, previous := truthyUri nb.previousUri,
             next := truthyUri nb.nextUri }
         | none => { hasNavigation := false, previous := none, next := none }) := by
  refine ⟨getSections_cons env toc root s rest m, ?_, ?_⟩
  · rcases hu : s.url with _ | url
    · simp only [hu]
      simp [getSections, hu]
    · simp only [hu]
      cases hne : (url != "") with
      | false =>
        simp only [hne, Bool.false_eq_true, if_false]
        simp [getSections, hu, hne]
      | true =>
        simp only [hne, if_true]
        cases hex : s.external with
        | true =>
          simp only [hex, if_true]
          simp [getSections, hu, hne, hex]
        | false =>
          simp only [hex, Bool.false_eq_true, if_false]
          cases hnb : env.existsSync (contentFilePath root url (".ipynb")) with
          | true =>
            simp only [hnb, if_true]
            simp [getSections, hu, hne, hex, hnb]
          | false =>
            simp only [hnb, Bool.false_eq_true, if_false]
            cases hmd : env.existsSync (contentFilePath root url (".md")) with
            | true => simp [getSections, hu, hne, hex, hnb, hmd]
            | false => simp [getSections, hu, hne, hex, hnb, hmd]
  · rcases hmu : m u with _ | nb
    · simp only [hmu]
      simp [getNavigation, hmu]
    · simp only [hmu]
      simp [getNavigation, hmu]

/-- C8: `getTableOfContentFiles` normalizes the configured
`maxBookSearchDepth` before globbing: undefined or negative selects the
default depth 5, zero selects an unlimited depth (`undefined`), every other
value passes through, and the glob of every folder receives exactly the
normalized depth. -/
theorem maxDepth_normalization :
    (∀ d : Option Int, (d = none ∨ ∃ v, d = some v ∧ v < 0) → normalizeDepth d = some 5)
    ∧ normalizeDepth (some 0) = none
    ∧ (∀ v : Int, 0 < v → normalizeDepth (some v) = some v)
    ∧ (∀ (env : Env) (st : ProviderState) (folders : List String),
        (getTableOfContentFiles env st folders).1.tableOfContentPaths
          = st.tableOfContentPaths
            ++ (folders.map (fun f =>
                 env.globSearch (tocPattern f)
                   (normalizeDepth env.maxBookSearchDepth))).flatten) := by
  refine ⟨?_, by simp [normalizeDepth], ?_, ?_⟩
  · rintro d (rfl | ⟨v, rfl, hv⟩)
    · rfl
    · simp [normalizeDepth, hv]
  · intro v hv
    have h1 : ¬ v < 0 := by omega
    have h2 : ¬ v = 0 := by omega
    simp [normalizeDepth, h1, h2]
  · intro env st folders
    simp [getTableOfContentFiles, foldl_glob_join]

/-- Witness for C8 at concrete depths and a concrete folder list. -/
theorem maxDepth_normalization_witness :
    normalizeDepth none = some 5
    ∧ normalizeDepth (some (-1)) = some 5
    ∧ normalizeDepth (some 3) = some 3
    ∧ (getTableOfContentFiles envEmpty
         { tableOfContentPaths := [], allNotebooks := emptyNotebookMap }
         ["w"]).1.tableOfContentPaths = [] := by
  refine ⟨maxDepth_normalization.1 none (Or.inl rfl),
          maxDepth_normalization.1 (some (-1)) (Or.inr ⟨-1, rfl, by decide⟩),
          maxDepth_normalization.2.2.1 3 (by decide), ?_⟩
  have h := maxDepth_normalization.2.2.2 envEmpty
    { tableOfContentPaths := [], allNotebooks := emptyNotebookMap } ["w"]
  simpa [envEmpty] using h

/-- C9: the `_allNotebooks` cache is monotone and never evicted. No
state-changing operation of the provider removes an entry; `refresh` resets
the table-of-contents path list but leaves the map untouched; consequently,
after a refresh in which a book disappears from the workspace, `getNavigation`
still answers `hasNavigation = true` on the previously cached notebook
paths. -/
theorem allNotebooks_monotone (env : Env) (st : ProviderState)
    (ops : List ProviderOp) (folders : List String) (k : String) :
    ((st.allNotebooks k).isSome = true →
      ((applyOps env st ops).allNotebooks k).isSome = true)
    ∧ (applyOp env st (.refreshOp folders)).allNotebooks = st.allNotebooks
    ∧ ((st.allNotebooks k).isSome = true →
        (getNavigation ((applyOp env st (.refreshOp folders)).allNotebooks) k).hasNavigation
          = true) := by
  refine ⟨?_, rfl, ?_⟩
  · intro h
    induction ops generalizing st with
    | nil => exact h
    | cons op rest ih =>
      refine ih (applyOp env st op) ?_
      cases op with
      | refreshOp fs => exact h
      | tocFilesOp fs => exact h
      | sectionsOp toc secs root =>
        exact getSections_map_isSome env toc root secs st.allNotebooks k h
  · intro h
    show (getNavigation st.allNotebooks k).hasNavigation = true
    rcases hk : st.allNotebooks k with _ | v
    · rw [hk] at h; cases h
    · simp [getNavigation, hk]

/-- Witness for C9: a state caching one notebook path keeps answering
navigation for it after a refresh that finds no books. -/
theorem allNotebooks_monotone_witness :
    ((applyOps envEmpty stDemo [ProviderOp.refreshOp []]).allNotebooks
        ("b/content/nb.ipynb")).isSome = true
    ∧ (getNavigation ((applyOp envEmpty stDemo (ProviderOp.refreshOp []))).allNotebooks
        ("b/content/nb.ipynb")).hasNavigation = true := by
  have h := allNotebooks_monotone envEmpty stDemo [ProviderOp.refreshOp []] []
    ("b/content/nb.ipynb")
  have hsome : (stDemo.allNotebooks ("b/content/nb.ipynb")).isSome = true := by
    simp [stDemo, mapInsert]
  exact ⟨h.1 hsome, h.2.2 hsome⟩

/-- C10: `activate` of the browser JSON language client never propagates an
exception from its wiring block: an error thrown while creating the worker or
while starting the client is caught and logged to the console, and `activate`
returns normally in every case. -/
theorem activate_never_throws (env : ActivateEnv) :
    (activate env).isOk = true
    ∧ (∀ e, env.newWorker (env.asAbsolutePath ("server/dist/browser/jsonServerMain.js"))
          = Except.error e →
        activate env = Except.ok [Effect.consoleLog e])
    ∧ (∀ e, (env.newWorker (env.asAbsolutePath ("server/dist/browser/jsonServerMain.js"))).isOk
          = true →
        env.startLanguageClient = Except.error e →
        activate env = Except.ok [Effect.consoleLog e])
    ∧ ((env.newWorker (env.asAbsolutePath ("server/dist/browser/jsonServerMain.js"))).isOk
          = true →
       env.startLanguageClient.isOk = true →
       activate env = Except.ok []) := by
  refine ⟨rfl, ?_, ?_, ?_⟩
  · intro e he
    simp only [activate, he]
    rfl
  · intro e hw hs
    rcases hok : env.newWorker (env.asAbsolutePath ("server/dist/browser/jsonServerMain.js"))
      with e' | u
    · rw [hok] at hw; cases hw
    · simp only [activate, hok, hs]
      rfl
  · intro hw hs
    rcases hok : env.newWorker (env.asAbsolutePath ("server/dist/browser/jsonServerMain.js"))
      with e' | u
    · rw [hok] at hw; cases hw
    · rcases hcl : env.startLanguageClient with e' | u'
      · rw [hcl] at hs; cases hs
      · simp only [activate, hok, hcl]
        rfl

/-- Witness for C10: a worker-constructor throw is logged, and activate still
returns normally. -/
theorem activate_never_throws_witness :
    (activate activateEnvFail).isOk = true
    ∧ activate activateEnvFail = Except.ok [Effect.consoleLog ("worker creation failed")] := by
  exact ⟨(activate_never_throws activateEnvFail).1,
         (activate_never_throws activateEnvFail).2.1 _ rfl⟩

/-- C6: the welcome-page default export is a pure string template over the
localization bundle. Every localized message is substituted only after being
HTML-escaped via `escape` (the page equals the raw template with
`escape ∘ localize` at every substitution slot), and two calls with the same
localization results and the same `require.toUrl` results produce identical
output strings. -/
theorem welcomePage_escaped_pure :
    (∀ loc toUrl, welcomePage loc toUrl
        = welcomePageFrom (fun k d => escape (loc k d)) toUrl)
    ∧ (∀ loc1 loc2 toUrl1 toUrl2,
        (∀ k d, loc1 k d = loc2 k d) → (∀ p, toUrl1 p = toUrl2 p) →
        welcomePage loc1 toUrl1 = welcomePage loc2 toUrl2) := by
  constructor
  · intro loc toUrl
    rfl
  · intro loc1 loc2 toUrl1 toUrl2 hl hu
    have h1 : loc1 = loc2 := funext fun k => funext fun d => hl k d
    have h2 : toUrl1 = toUrl2 := funext hu
    rw [h1, h2]

/-- Witness for C6 at a concrete localization function. -/
theorem welcomePage_escaped_pure_witness :
    welcomePage (fun _ d => d) (fun p => p)
      = welcomePageFrom (fun k d => escape ((fun _ d => d) k d)) (fun p => p)
    ∧ welcomePage (fun _ d => d) (fun p => p)
      = welcomePage (fun _ d => d) (fun p => p) := by
  exact ⟨welcomePage_escaped_pure.1 (fun _ d => d) (fun p => p),
         welcomePage_escaped_pure.2 (fun _ d => d) (fun _ d => d)
           (fun p => p) (fun p => p) (fun _ _ => rfl) (fun _ => rfl)⟩
